import Mathlib

/-!
Shallow embedding of `src/main.py` (a FastMCP server exposing Qiita tools,
plus the spec-described Zenn dispatch tool that is absent from `src/`).

Modelling conventions:
* Python/JSON values are the inductive `Json`; a Python `dict` parsed from
  JSON is an association list `Dict` (keys assumed distinct, as produced by
  the code and by JSON parsing).
* Each tool is a pure function of its call arguments together with the
  upstream `Response` that the network would return to the single outbound
  request the tool can issue.  The function returns the list of outbound
  requests actually issued (the trace) together with the result: `Except
  PyError Json`, where `Except.error` models a raised Python exception.
* `httpx.Response.raise_for_status` raises exactly when the status code is
  not 2xx (`is_success`).
* The per-request authentication hook `set_auth_header` is modelled
  separately (`set_auth_header` below) acting on the headers of an outgoing
  request, with the inbound transport request supplying the query
  parameters.
-/

inductive Json where
  | null
  | bool (b : Bool)
  | num (n : Int)
  | str (s : String)
  | arr (elems : List Json)
  | obj (fields : List (String × Json))

abbrev Dict := List (String × Json)

/-- Python truthiness of a JSON value (`bool(v)`). -/
def Json.falsy : Json → Bool
  | .null => true
  | .bool b => !b
  | .num n => n == 0
  | .str s => s.isEmpty
  | .arr xs => xs.isEmpty
  | .obj fs => fs.isEmpty

/-- Python `a or b` on JSON values. -/
def pyOr (a b : Json) : Json := if a.falsy then b else a

/-- `d.get(k)` on a Python dict: the stored value, or `None` when absent. -/
def dictGet (d : Dict) (k : String) : Json :=
  match d.lookup k with
  | some v => v
  | none => Json.null

/-- `d.get(k, dflt)` on a Python dict. -/
def dictGetD (d : Dict) (k : String) (dflt : Json) : Json :=
  match d.lookup k with
  | some v => v
  | none => dflt

/-- Python string slice `s[:n]` (first `n` code points). -/
def pyTake (s : String) (n : Nat) : String := String.mk (s.data.take n)

/-- Python string slice `s[n:]`. -/
def pyDrop (s : String) (n : Nat) : String := String.mk (s.data.drop n)

def asDict : Json → Option Dict
  | .obj fs => some fs
  | _ => none

def asArr : Json → Option (List Json)
  | .arr xs => some xs
  | _ => none

def asStr : Json → Option String
  | .str s => some s
  | _ => none

/-- `mapM` over `Option`, written by explicit recursion (a `None` models a
Python exception aborting the surrounding loop). -/
def mapOpt {α β : Type} (f : α → Option β) : List α → Option (List β)
  | [] => some []
  | a :: as =>
    match f a with
    | none => none
    | some b =>
      match mapOpt f as with
      | none => none
      | some bs => some (b :: bs)

/-- An outbound HTTP request as issued through the shared `httpx` client
(`method`, path relative to the base URL or absolute, query params, JSON
body, explicitly set headers). -/
structure HttpRequest where
  method : String
  url : String
  params : List (String × Json)
  jsonBody : Option Json
  headers : List (String × String)

/-- An upstream HTTP response: status code and parsed JSON body. -/
structure Response where
  status : Nat
  body : Json

/-- `httpx.Response.is_success`: the 2xx range. -/
def is_success (status : Nat) : Bool := 200 ≤ status && status < 300

/-- A raised Python exception. -/
inductive PyError where
  | httpStatusError (status : Nat)
  | typeError
  | attributeError
deriving DecidableEq

/-- The inbound transport-level request (`get_http_request()`): we only need
its query parameters. -/
structure InboundRequest where
  query_params : List (String × String)

/-- `get_http_request().query_params.get('token')`. -/
def get_token (r : InboundRequest) : Option String :=
  r.query_params.lookup "token"

/-- `headers.setdefault(k, v)`: add the pair only when the key is absent. -/
def headers_setdefault (hs : List (String × String)) (k v : String) :
    List (String × String) :=
  match hs.lookup k with
  | some _ => hs
  | none => hs ++ [(k, v)]

/-- `src/main.py` lines 8-9: the request event hook.  The default value
`'Bearer ' + token` is evaluated before `setdefault` runs, so a missing
`token` query parameter (`None`) raises `TypeError` from the string
concatenation, whatever the current headers are. -/
def set_auth_header (inbound : InboundRequest)
    (hs : List (String × String)) : Except PyError (List (String × String)) :=
  match get_token inbound with
  | none => Except.error PyError.typeError
  | some t => Except.ok (headers_setdefault hs "Authorization" ("Bearer " ++ t))

/-- `t.get("name")` for one element of `it.get("tags", [])`; a non-dict
element raises `AttributeError` (modelled as `none`). -/
def tag_name (t : Json) : Option Json :=
  match asDict t with
  | some td => some (dictGet td "name")
  | none => none

/-- The per-item projection inside `search_qiita_items` (lines 53-69):
the dict literal appended to `results`.  `none` models a raised exception
(non-dict item, non-dict `user`, non-list `tags`, non-dict tag element, or
slicing a truthy non-string `rendered_body`). -/
def project_item (j : Json) : Option Dict :=
  match asDict j with
  | none => none
  | some it =>
    match asDict (dictGetD it "user" (Json.obj [])) with
    | none => none
    | some user =>
      match asArr (dictGetD it "tags" (Json.arr [])) with
      | none => none
      | some tags =>
        match mapOpt tag_name tags with
        | none => none
        | some tagNames =>
          match asStr (pyOr (dictGet it "rendered_body") (Json.str "")) with
          | none => none
          | some rb =>
            some [("id", dictGet it "id"),
                  ("title", dictGet it "title"),
                  ("url", dictGet it "url"),
                  ("likes_count", dictGet it "likes_count"),
                  ("stocks_count", dictGet it "stocks_count"),
                  ("created_at", dictGet it "created_at"),
                  ("updated_at", dictGet it "updated_at"),
                  ("user", Json.obj [("id", dictGet user "id"),
                                     ("name", dictGet user "name")]),
                  ("tags", Json.arr tagNames),
                  ("snippet", Json.str (pyTake rb 200))]

/-- `search_qiita_items` (lines 27-70): GET `items`, `raise_for_status`,
then project each element of the JSON array into a summary dict. -/
def search_qiita_items (query : String) (page per_page : Int)
    (resp : Response) : List HttpRequest × Except PyError Json :=
  let req : HttpRequest :=
    ⟨"GET", "items",
     [("query", Json.str query), ("page", Json.num page),
      ("per_page", Json.num per_page)], none, []⟩
  if is_success resp.status then
    match resp.body with
    | Json.arr items =>
      match mapOpt project_item items with
      | some rs =>
        ([req], Except.ok (Json.obj [("results", Json.arr (rs.map Json.obj))]))
      | none => ([req], Except.error PyError.attributeError)
    | _ => ([req], Except.error PyError.typeError)
  else
    ([req], Except.error (PyError.httpStatusError resp.status))

/-- `get_qiita_item` (lines 73-81): GET `items/{item_id}`,
`raise_for_status`, then return the raw JSON body. -/
def get_qiita_item (item_id : String) (resp : Response) :
    List HttpRequest × Except PyError Json :=
  let req : HttpRequest := ⟨"GET", "items/" ++ item_id, [], none, []⟩
  if is_success resp.status then
    ([req], Except.ok resp.body)
  else
    ([req], Except.error (PyError.httpStatusError resp.status))

/-- `get_my_qiita_articles` (lines 84-91): GET `authenticated_user/items`,
`raise_for_status`, wrap the body as `{"results": ...}`. -/
def get_my_qiita_articles (page per_page : Int) (resp : Response) :
    List HttpRequest × Except PyError Json :=
  let req : HttpRequest :=
    ⟨"GET", "authenticated_user/items",
     [("page", Json.num page), ("per_page", Json.num per_page)], none, []⟩
  if is_success resp.status then
    ([req], Except.ok (Json.obj [("results", resp.body)]))
  else
    ([req], Except.error (PyError.httpStatusError resp.status))

/-- The payload dict built by `post_qiita_article` (lines 116-124): `title`,
`body`, `private` always; `tags` and `organization_url_name` only when
truthy (`if tags:` / `if organization_url_name:`).  The `tweet` argument is
not consulted. -/
def post_payload (title body : String) (tags : Option (List Json))
    (priv : Bool) (organization_url_name : Option String) : Dict :=
  [("title", Json.str title), ("body", Json.str body),
   ("private", Json.bool priv)]
  ++ (match tags with
      | some ts => if ts.isEmpty then [] else [("tags", Json.arr ts)]
      | none => [])
  ++ (match organization_url_name with
      | some s => if s.isEmpty then [] else
          [("organization_url_name", Json.str s)]
      | none => [])

/-- `post_qiita_article` (lines 94-127): POST `items` with the payload, no
`raise_for_status`; the raw response body is returned whatever the status. -/
def post_qiita_article (title body : String) (tags : Option (List Json))
    (priv : Bool) (tweet : Bool) (organization_url_name : Option String)
    (resp : Response) : List HttpRequest × Except PyError Json :=
  ([⟨"POST", "items", [],
     some (Json.obj (post_payload title body tags priv organization_url_name)),
     []⟩],
   Except.ok resp.body)

/-- The partial-update dict built by `update_qiita_article` (lines 143-151):
each field is included exactly when the argument `is not None`. -/
def update_patch (title body : Option String) (tags : Option (List Json))
    (priv : Option Bool) : Dict :=
  (match title with | some t => [("title", Json.str t)] | none => [])
  ++ (match body with | some b => [("body", Json.str b)] | none => [])
  ++ (match tags with | some ts => [("tags", Json.arr ts)] | none => [])
  ++ (match priv with | some p => [("private", Json.bool p)] | none => [])

/-- `update_qiita_article` (lines 130-157): build the patch; if it is empty
(`if not patch:`) return the sentinel without any outbound request;
otherwise PATCH `items/{item_id}` with no `raise_for_status`. -/
def update_qiita_article (item_id : String) (title body : Option String)
    (tags : Option (List Json)) (priv : Option Bool) (resp : Response) :
    List HttpRequest × Except PyError Json :=
  let patch := update_patch title body tags priv
  if patch.isEmpty then
    ([], Except.ok (Json.obj [("message", Json.str "Nothing to update.")]))
  else
    ([⟨"PATCH", "items/" ++ item_id, [], some (Json.obj patch), []⟩],
     Except.ok resp.body)

/-- `get_qiita_markdown_rules` (lines 160-170): a constant, no request. -/
def get_qiita_markdown_rules : List HttpRequest × Except PyError Json :=
  ([], Except.ok (Json.obj
    [("resources", Json.arr
      [Json.str "https://help.qiita.com/ja/articles/qiita-markdown",
       Json.str "https://qiita.com/api/v2/docs"])]))

/-- A failure kind of the Zenn tool (configuration errors raised before any
network activity). -/
inductive ZennError where
  | configError (msg : String)

/-- Modelled from the spec: the Zenn service's sample connection URL shown
in the configuration-error message (spec section 4.2: a sample URL showing
how to supply `token` and `repo_name` as query parameters; the concrete
wording is not fixed by the spec, only that such a URL is included). -/
def zenn_sample_url : String :=
  "https://<host>/sse?token=<github_token>&repo_name=<owner>/<repo>"

/-- Modelled from the spec: the corrective instructional message carried by
the Zenn configuration error (spec section 4.2 step 2). -/
def zenn_config_error_message : String :=
  "token and repo_name are required as query parameters; reconnect using a URL like "
  ++ zenn_sample_url

/-- Modelled from the spec: `topics_json` is the JSON-encoded array of the
topic strings (spec section 4.2 step 3); escaping inside topic strings is
not exercised by any claim. -/
def topics_json_of (topics : List String) : String :=
  "[" ++ String.intercalate "," (topics.map (fun s => "\"" ++ s ++ "\"")) ++ "]"

/-- Modelled from the spec: `post_zenn_article` is code of this repository
that is not present under `src/` (the checked-in `src/main.py` contains only
the Qiita service).  Spec section 4.2: read `token` and `repo_name` from the
inbound request's query parameters; fail with a configuration error carrying
a corrective message (with a sample URL) before any outbound request when
either is missing; otherwise POST one repository-dispatch event with
`event_type = "new_article"` and a bearer Authorization header, returning no
payload. -/
def post_zenn_article (token repo_name : Option String) (title body : String)
    (topics : Option (List String)) : List HttpRequest × Except ZennError Unit :=
  match token, repo_name with
  | some t, some r =>
    ([⟨"POST", "https://api.github.com/repos/" ++ r ++ "/dispatches", [],
       some (Json.obj
         [("event_type", Json.str "new_article"),
          ("client_payload", Json.obj
            ([("title", Json.str title), ("body", Json.str body)]
             ++ (match topics with
                 | some ts => [("topics_json", Json.str (topics_json_of ts))]
                 | none => [])))]),
       [("Authorization", "Bearer " ++ t)]⟩],
     Except.ok ())
  | _, _ => ([], Except.error (ZennError.configError zenn_config_error_message))

/-! ### Helper lemmas -/

lemma lookup_cons {β : Type} (k a : String) (v : β) (l : List (String × β)) :
    List.lookup k ((a, v) :: l) = if k = a then some v else List.lookup k l := by
  by_cases h : k = a
  · subst h; simp [List.lookup]
  · have hb : (k == a) = false := beq_eq_false_iff_ne.mpr h
    simp [List.lookup, hb, h]

lemma lookup_append {β : Type} (l1 l2 : List (String × β)) (k : String) :
    List.lookup k (l1 ++ l2) =
      (match List.lookup k l1 with
       | some v => some v
       | none => List.lookup k l2) := by
  induction l1 with
  | nil => simp [List.lookup]
  | cons a l ih =>
    cases a with
    | mk a1 a2 =>
      rw [List.cons_append, lookup_cons, lookup_cons]
      by_cases h : k = a1 <;> simp [h, ih]

lemma update_patch_eq_nil_iff (title body : Option String)
    (tags : Option (List Json)) (priv : Option Bool) :
    update_patch title body tags priv = [] ↔
      title = none ∧ body = none ∧ tags = none ∧ priv = none := by
  cases title <;> cases body <;> cases tags <;> cases priv <;>
    simp [update_patch]

lemma update_patch_isEmpty_false (title body : Option String)
    (tags : Option (List Json)) (priv : Option Bool)
    (h : title ≠ none ∨ body ≠ none ∨ tags ≠ none ∨ priv ≠ none) :
    (update_patch title body tags priv).isEmpty = false := by
  rw [List.isEmpty_eq_false_iff_exists_mem]
  rcases hn : update_patch title body tags priv with _ | ⟨a, l⟩
  · rw [update_patch_eq_nil_iff] at hn
    rcases h with h | h | h | h <;> simp_all
  · exact ⟨a, by simp⟩

lemma update_patch_lookup (title body : Option String)
    (tags : Option (List Json)) (priv : Option Bool) (k : String) :
    List.lookup k (update_patch title body tags priv) =
      if k = "title" then title.map Json.str
      else if k = "body" then body.map Json.str
      else if k = "tags" then tags.map Json.arr
      else if k = "private" then priv.map Json.bool
      else none := by
  cases title <;> cases body <;> cases tags <;> cases priv <;>
    simp [update_patch, lookup_cons] <;>
    split_ifs <;> simp_all

/-! ### Claims -/

/-- Claim C1: a call to `update_qiita_article` with all optional fields
omitted issues no outbound HTTP request and returns exactly
`{"message": "Nothing to update."}`. -/
theorem update_all_omitted_no_request (item_id : String) (resp : Response) :
    update_qiita_article item_id none none none none resp =
      ([], Except.ok (Json.obj [("message", Json.str "Nothing to update.")])) :=
  rfl

/-- Claim C2: with at least one optional field supplied,
`update_qiita_article` issues exactly one PATCH whose body contains exactly
the supplied fields (characterised by the key-lookup map) and no others. -/
theorem update_patch_exactly_supplied_fields (item_id : String)
    (title body : Option String) (tags : Option (List Json))
    (priv : Option Bool) (resp : Response)
    (h : title ≠ none ∨ body ≠ none ∨ tags ≠ none ∨ priv ≠ none) :
    update_qiita_article item_id title body tags priv resp =
      ([⟨"PATCH", "items/" ++ item_id, [],
         some (Json.obj (update_patch title body tags priv)), []⟩],
       Except.ok resp.body) ∧
    ∀ k : String, List.lookup k (update_patch title body tags priv) =
      if k = "title" then title.map Json.str
      else if k = "body" then body.map Json.str
      else if k = "tags" then tags.map Json.arr
      else if k = "private" then priv.map Json.bool
      else none := by
  constructor
  · simp [update_qiita_article,
      update_patch_isEmpty_false title body tags priv h]
  · intro k
    exact update_patch_lookup title body tags priv k

/-- Witness for C2 at a concrete input: supplying only `title = "X"` yields
one outbound PATCH whose body is exactly `{"title": "X"}`. -/
theorem update_patch_exactly_supplied_fields_witness :
    update_qiita_article "abc123" (some "X") none none none ⟨200, Json.null⟩ =
      ([⟨"PATCH", "items/abc123", [],
         some (Json.obj [("title", Json.str "X")]), []⟩],
       Except.ok Json.null) ∧
    ∀ k : String, List.lookup k (update_patch (some "X") none none none) =
      if k = "title" then (some "X").map Json.str
      else if k = "body" then (none : Option String).map Json.str
      else if k = "tags" then (none : Option (List Json)).map Json.arr
      else if k = "private" then (none : Option Bool).map Json.bool
      else none :=
  update_patch_exactly_supplied_fields "abc123" (some "X") none none none
    ⟨200, Json.null⟩ (Or.inl (by simp))

/-- Claim C3: on an upstream non-2xx response the read operations
(`search_qiita_items`, `get_qiita_item`, `get_my_qiita_articles`) propagate
an HTTP error, while the write operations (`post_qiita_article`, and
`update_qiita_article` with a non-empty patch) do not raise and return the
raw response body. -/
theorem read_ops_raise_write_ops_return_body (query : String)
    (page per_page : Int) (item_id : String) (ptitle pbody : String)
    (ptags : Option (List Json)) (ppriv ptweet : Bool)
    (porg : Option String) (utitle ubody : Option String)
    (utags : Option (List Json)) (upriv : Option Bool) (resp : Response)
    (h : is_success resp.status = false)
    (hu : utitle ≠ none ∨ ubody ≠ none ∨ utags ≠ none ∨ upriv ≠ none) :
    (search_qiita_items query page per_page resp).2 =
      Except.error (PyError.httpStatusError resp.status) ∧
    (get_qiita_item item_id resp).2 =
      Except.error (PyError.httpStatusError resp.status) ∧
    (get_my_qiita_articles page per_page resp).2 =
      Except.error (PyError.httpStatusError resp.status) ∧
    (post_qiita_article ptitle pbody ptags ppriv ptweet porg resp).2 =
      Except.ok resp.body ∧
    (update_qiita_article item_id utitle ubody utags upriv resp).2 =
      Except.ok resp.body := by
  refine ⟨?_, ?_, ?_, rfl, ?_⟩
  · simp [search_qiita_items, h]
  · simp [get_qiita_item, h]
  · simp [get_my_qiita_articles, h]
  · simp [update_qiita_article,
      update_patch_isEmpty_false utitle ubody utags upriv hu]

/-- Witness for C3 at a concrete input: an upstream 404, with a non-empty
update patch of body and private (no title). -/
theorem read_ops_raise_write_ops_return_body_witness :
    (search_qiita_items "q" 1 10 ⟨404, Json.null⟩).2 =
      Except.error (PyError.httpStatusError 404) ∧
    (get_qiita_item "deadbeef" ⟨404, Json.null⟩).2 =
      Except.error (PyError.httpStatusError 404) ∧
    (get_my_qiita_articles 1 20 ⟨404, Json.null⟩).2 =
      Except.error (PyError.httpStatusError 404) ∧
    (post_qiita_article "t" "b" none false false none ⟨404, Json.null⟩).2 =
      Except.ok Json.null ∧
    (update_qiita_article "deadbeef" none (some "new body") none (some true)
      ⟨404, Json.null⟩).2 = Except.ok Json.null :=
  read_ops_raise_write_ops_return_body "q" 1 10 "deadbeef" "t" "b" none false
    false none none (some "new body") none (some true) ⟨404, Json.null⟩
    (by decide) (Or.inr (Or.inl (by simp)))

/-- Claim C7: `post_qiita_article` accepts `tweet` but never forwards it:
the outbound POST body has no `tweet` key, and the whole call (trace and
result) is independent of the value of `tweet`. -/
theorem post_tweet_never_forwarded (title body : String)
    (tags : Option (List Json)) (priv tweet tweet2 : Bool)
    (org : Option String) (resp : Response) :
    (∀ v, ("tweet", v) ∉ post_payload title body tags priv org) ∧
    post_qiita_article title body tags priv tweet org resp =
      post_qiita_article title body tags priv tweet2 org resp := by
  constructor
  · intro v hv
    cases tags <;> cases org <;>
      simp only [post_payload] at hv <;>
      (try split_ifs at hv) <;> simp_all
  · rfl

/-- Claim C8: `get_qiita_markdown_rules` issues no network request, never
fails, and always returns the fixed two-URL resources object. -/
theorem markdown_rules_constant :
    get_qiita_markdown_rules =
      ([], Except.ok (Json.obj
        [("resources", Json.arr
          [Json.str "https://help.qiita.com/ja/articles/qiita-markdown",
           Json.str "https://qiita.com/api/v2/docs"])])) :=
  rfl

/-- Claim C10: `post_qiita_article` always sends `private` (so `false` when
the caller keeps the default), omits `tags` and `organization_url_name`
exactly when the arguments are falsy (in particular `tags = []` sends no
`tags` key), whereas `update_qiita_article` tests `tags is not None`, so
`tags = []` there puts `"tags": []` in the patch and triggers an outbound
PATCH instead of the nothing-to-update sentinel. -/
theorem post_falsy_omitted_update_none_tested (title body : String)
    (tags : Option (List Json)) (priv : Bool) (org : Option String)
    (item_id : String) (resp : Response) :
    ("private", Json.bool priv) ∈ post_payload title body tags priv org ∧
    ((∃ v, ("tags", v) ∈ post_payload title body tags priv org) ↔
      ∃ ts, tags = some ts ∧ ts ≠ []) ∧
    ((∃ v, ("organization_url_name", v) ∈
       post_payload title body tags priv org) ↔
      ∃ s, org = some s ∧ s ≠ "") ∧
    (∀ v, ("tags", v) ∉ post_payload title body (some []) priv org) ∧
    update_patch none none (some []) none = [("tags", Json.arr [])] ∧
    (update_qiita_article item_id none none (some []) none resp).1 =
      [⟨"PATCH", "items/" ++ item_id, [],
        some (Json.obj [("tags", Json.arr [])]), []⟩] := by
  refine ⟨?_, ?_, ?_, ?_, rfl, ?_⟩
  · simp [post_payload]
  · rcases tags with _ | ts <;> rcases org with _ | s <;>
      simp only [post_payload] <;>
      (try split_ifs) <;>
      simp_all [List.isEmpty_iff, String.isEmpty_iff]
  · rcases tags with _ | ts <;> rcases org with _ | s <;>
      simp only [post_payload] <;>
      (try split_ifs) <;>
      simp_all [List.isEmpty_iff, String.isEmpty_iff]
  · intro v hv
    rcases org with _ | s <;>
      simp only [post_payload] at hv <;>
      (try split_ifs at hv) <;>
      simp_all
  · simp [update_qiita_article, update_patch]

/-- Claim C9: the request hook, when a `token` query parameter is present on
the inbound request, sets `Authorization` to `Bearer <token>` if that header
is absent, and leaves an already-set `Authorization` header unchanged. -/
theorem auth_hook_bearer_setdefault (inbound : InboundRequest)
    (hs : List (String × String)) (t : String)
    (h : get_token inbound = some t) :
    (List.lookup "Authorization" hs = none →
      set_auth_header inbound hs =
        Except.ok (hs ++ [("Authorization", "Bearer " ++ t)])) ∧
    (∀ v, List.lookup "Authorization" hs = some v →
      set_auth_header inbound hs = Except.ok hs) := by
  constructor
  · intro habs
    simp [set_auth_header, h, headers_setdefault, habs]
  · intro v hv
    simp [set_auth_header, h, headers_setdefault, hv]

/-- Witness for C9 at a concrete input: token `secret`, and once an empty
header set, once a pre-set `Authorization` header. -/
theorem auth_hook_bearer_setdefault_witness :
    (List.lookup "Authorization" ([] : List (String × String)) = none →
      set_auth_header ⟨[("token", "secret")]⟩ [] =
        Except.ok ([] ++ [("Authorization", "Bearer " ++ "secret")])) ∧
    (∀ v, List.lookup "Authorization" ([] : List (String × String)) = some v →
      set_auth_header ⟨[("token", "secret")]⟩ [] = Except.ok []) :=
  auth_hook_bearer_setdefault ⟨[("token", "secret")]⟩ [] "secret" rfl

/-- Claim C5 is violated by the code (a code bug): with no `token` query
parameter on the inbound request, the hook evaluates
`'Bearer ' + query_params.get('token')` with `None` and raises `TypeError`,
so a token-less `search_qiita_items`/`get_qiita_item` call fails locally
instead of completing its outbound request. -/
theorem auth_hook_missing_token_raises :
    set_auth_header ⟨[("q", "fastmcp")]⟩ [] =
      Except.error PyError.typeError := rfl

/-- Claim C6 (Zenn service, modelled from the spec): when `token` or
`repo_name` is missing from the inbound query parameters,
`post_zenn_article` issues no outbound request and fails with a
configuration error whose message contains a sample URL. -/
theorem zenn_missing_config_fails_before_request
    (token repo_name : Option String) (title body : String)
    (topics : Option (List String))
    (h : token = none ∨ repo_name = none) :
    (post_zenn_article token repo_name title body topics).1 = [] ∧
    (post_zenn_article token repo_name title body topics).2 =
      Except.error (ZennError.configError zenn_config_error_message) ∧
    ∃ before after, zenn_config_error_message =
      before ++ zenn_sample_url ++ after := by
  have hmsg : ∃ before after, zenn_config_error_message =
      before ++ zenn_sample_url ++ after :=
    ⟨"token and repo_name are required as query parameters; reconnect using a URL like ",
     "", by simp [zenn_config_error_message]⟩
  rcases h with h | h
  · subst h
    exact ⟨rfl, rfl, hmsg⟩
  · subst h
    cases token with
    | none => exact ⟨rfl, rfl, hmsg⟩
    | some t => exact ⟨rfl, rfl, hmsg⟩

/-- Witness for C6 at a concrete input: `token` absent, `repo_name`
supplied. -/
theorem zenn_missing_config_fails_before_request_witness :
    (post_zenn_article none (some "owner/repo") "t" "b" none).1 = [] ∧
    (post_zenn_article none (some "owner/repo") "t" "b" none).2 =
      Except.error (ZennError.configError zenn_config_error_message) ∧
    ∃ before after, zenn_config_error_message =
      before ++ zenn_sample_url ++ after :=
  zenn_missing_config_fails_before_request none (some "owner/repo") "t" "b"
    none (Or.inl rfl)

lemma pyTake_length_le (s : String) (n : Nat) : (pyTake s n).length ≤ n := by
  show (s.data.take n).length ≤ n
  rw [List.length_take]
  exact min_le_left _ _

lemma pyTake_append_pyDrop (s : String) (n : Nat) :
    pyTake s n ++ pyDrop s n = s := by
  cases s with
  | mk data =>
    show String.mk (data.take n ++ data.drop n) = String.mk data
    rw [List.take_append_drop]

lemma mapOpt_zip {α β : Type} (f : α → Option β) :
    ∀ (xs : List α) (ys : List β), mapOpt f xs = some ys →
      ∀ x y, (x, y) ∈ xs.zip ys → f x = some y := by
  intro xs
  induction xs with
  | nil =>
    intro ys h x y hm
    simp [mapOpt] at h
    subst h
    simp at hm
  | cons a as ih =>
    intro ys h x y hm
    cases ha : f a with
    | none => simp [mapOpt, ha] at h
    | some b =>
      cases hrest : mapOpt f as with
      | none => simp [mapOpt, ha, hrest] at h
      | some bs =>
        simp only [mapOpt, ha, hrest, Option.some.injEq] at h
        subst h
        simp only [List.zip_cons_cons, List.mem_cons, Prod.mk.injEq] at hm
        rcases hm with ⟨hx, hy⟩ | hm
        · subst hx; subst hy; exact ha
        · exact ih bs hrest x y hm

lemma project_item_snippet (fs d : Dict)
    (hp : project_item (Json.obj fs) = some d)
    (hwf : ∀ v, List.lookup "rendered_body" fs = some v →
      v = Json.null ∨ ∃ s, v = Json.str s) :
    ∃ s : String, List.lookup "snippet" d = some (Json.str s) ∧
      s.length ≤ 200 ∧
      ((∃ rb, List.lookup "rendered_body" fs = some (Json.str rb) ∧
         ∃ rest, rb = s ++ rest) ∨
       ((List.lookup "rendered_body" fs = none ∨
         List.lookup "rendered_body" fs = some Json.null) ∧ s = "")) := by
  have hfs : asDict (Json.obj fs) = some fs := rfl
  simp only [project_item, hfs] at hp
  cases hu : asDict (dictGetD fs "user" (Json.obj [])) with
  | none => simp only [hu] at hp; exact Option.noConfusion hp
  | some user =>
    simp only [hu] at hp
    cases htg : asArr (dictGetD fs "tags" (Json.arr [])) with
    | none => simp only [htg] at hp; exact Option.noConfusion hp
    | some tags =>
      simp only [htg] at hp
      cases htn : mapOpt tag_name tags with
      | none => simp only [htn] at hp; exact Option.noConfusion hp
      | some tagNames =>
        simp only [htn] at hp
        cases hrb : asStr (pyOr (dictGet fs "rendered_body") (Json.str "")) with
        | none => simp only [hrb] at hp; exact Option.noConfusion hp
        | some rb =>
          simp only [hrb, Option.some.injEq] at hp
          subst hp
          refine ⟨pyTake rb 200, ?_, pyTake_length_le rb 200, ?_⟩
          · simp [lookup_cons]
          · cases hlrb : List.lookup "rendered_body" fs with
            | none =>
              have hnull : dictGet fs "rendered_body" = Json.null := by
                simp [dictGet, hlrb]
              rw [hnull] at hrb
              simp [pyOr, Json.falsy, asStr] at hrb
              subst hrb
              right
              exact ⟨Or.inl rfl, rfl⟩
            | some v =>
              have hdv : dictGet fs "rendered_body" = v := by
                simp [dictGet, hlrb]
              rcases hwf v hlrb with rfl | ⟨t, rfl⟩
              · rw [hdv] at hrb
                simp [pyOr, Json.falsy, asStr] at hrb
                subst hrb
                right
                exact ⟨Or.inr rfl, rfl⟩
              · rw [hdv] at hrb
                by_cases ht : t = ""
                · subst ht
                  simp [pyOr, Json.falsy, asStr] at hrb
                  subst hrb
                  left
                  exact ⟨"", rfl, "", rfl⟩
                · simp [pyOr, Json.falsy, asStr, String.isEmpty_iff, ht] at hrb
                  subst hrb
                  left
                  exact ⟨t, rfl, pyDrop t 200,
                    (pyTake_append_pyDrop t 200).symm⟩

/-- Claim C4: for a successful `search_qiita_items` call (upstream array
`items`, all projections succeeding, `rendered_body` fields absent, null or
strings as the upstream API returns them), every result's `snippet` is a
string of at most 200 characters that is a prefix of the item's
`rendered_body` (in the sense `rendered_body = snippet ++ rest`), and is
the empty string when `rendered_body` is absent or null. -/
theorem search_snippet_bounded_and_prefix_of_rendered_body (query : String)
    (page per_page : Int) (resp : Response) (items : List Json)
    (ds : List Dict)
    (hb : resp.body = Json.arr items)
    (hst : is_success resp.status = true)
    (hp : mapOpt project_item items = some ds)
    (hwf : ∀ fs, Json.obj fs ∈ items → ∀ v,
      List.lookup "rendered_body" fs = some v →
      v = Json.null ∨ ∃ s, v = Json.str s) :
    (search_qiita_items query page per_page resp).2 =
      Except.ok (Json.obj [("results", Json.arr (ds.map Json.obj))]) ∧
    ∀ j d, (j, d) ∈ items.zip ds → ∀ fs, j = Json.obj fs →
      ∃ s : String, List.lookup "snippet" d = some (Json.str s) ∧
        s.length ≤ 200 ∧
        ((∃ rb, List.lookup "rendered_body" fs = some (Json.str rb) ∧
           ∃ rest, rb = s ++ rest) ∨
         ((List.lookup "rendered_body" fs = none ∨
           List.lookup "rendered_body" fs = some Json.null) ∧ s = "")) := by
  constructor
  · simp [search_qiita_items, hb, hst, hp]
  · intro j d hm fs hj
    subst hj
    have hmem : Json.obj fs ∈ items := (List.of_mem_zip hm).1
    have hpj : project_item (Json.obj fs) = some d :=
      mapOpt_zip project_item items ds hp _ _ hm
    exact project_item_snippet fs d hpj (hwf fs hmem)

/-- Witness for C4 at a concrete input: one upstream item with no
`rendered_body`, whose snippet is the empty string. -/
theorem search_snippet_bounded_and_prefix_witness :
    (search_qiita_items "tag:python" 1 10
      ⟨200, Json.arr [Json.obj []]⟩).2 =
      Except.ok (Json.obj [("results", Json.arr
        ([[("id", Json.null), ("title", Json.null), ("url", Json.null),
           ("likes_count", Json.null), ("stocks_count", Json.null),
           ("created_at", Json.null), ("updated_at", Json.null),
           ("user", Json.obj [("id", Json.null), ("name", Json.null)]),
           ("tags", Json.arr []), ("snippet", Json.str "")]].map Json.obj))]) ∧
    ∀ j d, (j, d) ∈ ([Json.obj []]).zip
        [[("id", Json.null), ("title", Json.null), ("url", Json.null),
          ("likes_count", Json.null), ("stocks_count", Json.null),
          ("created_at", Json.null), ("updated_at", Json.null),
          ("user", Json.obj [("id", Json.null), ("name", Json.null)]),
          ("tags", Json.arr []), ("snippet", Json.str "")]] →
      ∀ fs, j = Json.obj fs →
      ∃ s : String, List.lookup "snippet" d = some (Json.str s) ∧
        s.length ≤ 200 ∧
        ((∃ rb, List.lookup "rendered_body" fs = some (Json.str rb) ∧
           ∃ rest, rb = s ++ rest) ∨
         ((List.lookup "rendered_body" fs = none ∨
           List.lookup "rendered_body" fs = some Json.null) ∧ s = "")) :=
  search_snippet_bounded_and_prefix_of_rendered_body "tag:python" 1 10
    ⟨200, Json.arr [Json.obj []]⟩ [Json.obj []]
    [[("id", Json.null), ("title", Json.null), ("url", Json.null),
      ("likes_count", Json.null), ("stocks_count", Json.null),
      ("created_at", Json.null), ("updated_at", Json.null),
      ("user", Json.obj [("id", Json.null), ("name", Json.null)]),
      ("tags", Json.arr []), ("snippet", Json.str "")]]
    rfl rfl rfl
    (by
      intro fs hfs v hv
      simp at hfs
      subst hfs
      simp [List.lookup] at hv)
